import Mathlib

/-!
Verification development for the itinerary-generator scheduling engine
(src/src/tools/scheduling_tools.py, class ScheduleOptimizer).

The embedding models Python values shallowly:
  - POIs, place details, reviews and visit-info dictionaries become records
    whose fields are the keys the code reads;
  - machine floats become exact rationals;
  - fallible Python code (code that can raise) returns Except PyErr;
  - collaborator clients (the maps client, the LLM) become explicit function
    parameters, so every definition is a pure function of its inputs.
Line numbers in comments refer to scheduling_tools.py.

Arithmetic on ℚ is written with kAdd, kMul and kDiv, which are proved equal
to +, * and / (kAdd_eq, kMul_eq, kDiv_eq) and whose values the kernel can
compute on closed inputs. String processing is likewise written with
structurally recursive helpers over the character list, modelling the
Python string operations the code uses.
-/

/-- Addition on ℚ by the textbook formula; agrees with + (kAdd_eq) and
reduces on closed values. -/
def kAdd (a b : Rat) : Rat :=
  mkRat (a.num * b.den + b.num * a.den) (a.den * b.den)

/-- Multiplication on ℚ by the textbook formula; agrees with * (kMul_eq). -/
def kMul (a b : Rat) : Rat :=
  mkRat (a.num * b.num) (a.den * b.den)

/-- Division on ℚ by the textbook formula; agrees with / (kDiv_eq). -/
def kDiv (a b : Rat) : Rat :=
  Rat.divInt (a.num * b.den) (a.den * b.num)

lemma num_eq_mul_den (a : Rat) : (a.num : Rat) = a * (a.den : Rat) := by
  have h : ((a.den : Rat)) ≠ 0 := by
    exact_mod_cast a.den_nz
  have h2 := Rat.num_div_den a
  rw [div_eq_iff h] at h2
  exact h2

lemma kAdd_eq (a b : Rat) : kAdd a b = a + b := by
  have ha : ((a.den : Rat)) ≠ 0 := by exact_mod_cast a.den_nz
  have hb : ((b.den : Rat)) ≠ 0 := by exact_mod_cast b.den_nz
  rw [kAdd, Rat.mkRat_eq_div]
  push_cast
  field_simp
  rw [num_eq_mul_den a, num_eq_mul_den b]
  ring

lemma kMul_eq (a b : Rat) : kMul a b = a * b := by
  have ha : ((a.den : Rat)) ≠ 0 := by exact_mod_cast a.den_nz
  have hb : ((b.den : Rat)) ≠ 0 := by exact_mod_cast b.den_nz
  rw [kMul, Rat.mkRat_eq_div]
  push_cast
  field_simp
  rw [num_eq_mul_den a, num_eq_mul_den b]
  ring

lemma kDiv_eq (a b : Rat) : kDiv a b = a / b := by
  have ha : ((a.den : Rat)) ≠ 0 := by exact_mod_cast a.den_nz
  have hb : ((b.den : Rat)) ≠ 0 := by exact_mod_cast b.den_nz
  rw [kDiv, Rat.divInt_eq_div]
  by_cases hbz : b = 0
  · subst hbz
    simp
  · have hn : (b.num : Rat) ≠ 0 := by
      exact_mod_cast Rat.num_ne_zero.mpr hbz
    push_cast
    field_simp
    rw [num_eq_mul_den a, num_eq_mul_den b]
    ring

deriving instance DecidableEq for Except

/-- Exceptions raised by the modelled Python code. The payload is the
message text (quote characters of the original messages are omitted). -/
inductive PyErr where
  | valueError (m : String)
  | typeError (m : String)
  | indexError (m : String)
deriving DecidableEq

/-- Message carried by an exception. -/
def PyErr.msg : PyErr → String
  | .valueError m => m
  | .typeError m => m
  | .indexError m => m

/-- Geographic coordinate, the value of a dictionary with keys lat and lng.
Python compares such dictionaries with ==, hence decidable equality. -/
structure Coord where
  lat : Rat
  lng : Rat
deriving DecidableEq

/-- Point of interest as consumed by ScheduleOptimizer: a dictionary whose
read keys are place_id, name, types, user_ratings_total and
geometry.location (field location here). Missing optional keys are none. -/
structure POI where
  place_id : Option String
  name : Option String
  types : List String
  user_ratings_total : Option Nat
  location : Coord
deriving DecidableEq

/-- One review, of which the code only reads the text key (a missing text
key is read as the empty string via review.get, so a plain String
suffices). -/
structure Review where
  text : String
deriving DecidableEq

/-- Result of the place-details lookup (gmaps.place, line 185), restricted
to the keys calculate_duration and get_visit_info read. The opening_hours
value is fetched (line 190) but its only consumer is the call on line 196,
which raises before using it, so it is not modelled. -/
structure PlaceDetails where
  rating : Option Rat
  user_ratings_total : Option Nat
  reviews : List Review
deriving DecidableEq

/-- Visit-info dictionary stored in visit_info_cache. get_visit_info always
writes the keys recommended_duration and optimal_time (lines 179-182); line
195 writes under the misspelled key recommeded_duration, modelled as a
separate optional field. -/
structure VisitInfo where
  recommended_duration : Rat
  optimal_time : String
  recommeded_duration : Option Rat
deriving DecidableEq

/-- Whether pat is an initial segment of s (helper for substring search). -/
def startsWithChars : List Char → List Char → Bool
  | [], _ => true
  | _ :: _, [] => false
  | p :: ps, c :: cs => p = c && startsWithChars ps cs

/-- Whether pat occurs contiguously in s (helper for substring search). -/
def containsChars (s pat : List Char) : Bool :=
  match s with
  | [] => startsWithChars pat []
  | _ :: rest => startsWithChars pat s || containsChars rest pat

/-- Substring test, modelling the Python expression kw in t. -/
def strContains (t kw : String) : Bool :=
  containsChars t.data kw.data

/-- Python str.lower() (the texts handled here are ASCII). -/
def pyLower (s : String) : String :=
  ⟨s.data.map Char.toLower⟩

/-- Accumulator pass behind pySplit: split at whitespace runs, dropping
empty pieces; acc holds the current word reversed. -/
def splitWsAux : List Char → List Char → List String
  | [], acc => if acc = [] then [] else [String.mk acc.reverse]
  | c :: rest, acc =>
    if c.isWhitespace then
      if acc = [] then splitWsAux rest []
      else String.mk acc.reverse :: splitWsAux rest []
    else splitWsAux rest (c :: acc)

/-- Python str.split() with no argument: split on whitespace runs and drop
empty pieces. -/
def pySplit (s : String) : List String :=
  splitWsAux s.data []

/-- Accumulator pass behind splitOnChar; acc holds the current piece
reversed. -/
def splitOnCharAux (sep : Char) : List Char → List Char → List String
  | [], acc => [String.mk acc.reverse]
  | c :: rest, acc =>
    if c = sep then String.mk acc.reverse :: splitOnCharAux sep rest []
    else splitOnCharAux sep rest (c :: acc)

/-- Python str.split(sep) for a one-character separator: empty pieces are
kept. -/
def splitOnChar (sep : Char) (s : String) : List String :=
  splitOnCharAux sep s.data []

/-- Value of a digit string read in base 10. -/
def digitsVal (cs : List Char) : Nat :=
  cs.foldl (fun a c => a * 10 + (c.toNat - 48)) 0

/-- Python float(word) on the decimal literals review text can contain:
optional sign, digits, at most one decimal point, at least one digit
somewhere. Exotic accepted forms (exponents, inf, nan, underscores) are
not modelled; on them this parser answers none where Python would succeed,
which only matters for review words that are not plain numbers. -/
def pyFloat? (s : String) : Option Rat :=
  let signRest : Bool × List Char :=
    match s.data with
    | '-' :: r => (true, r)
    | '+' :: r => (false, r)
    | r => (false, r)
  let neg := signRest.1
  let intPart := signRest.2.takeWhile Char.isDigit
  let rest := signRest.2.dropWhile Char.isDigit
  let mag? : Option Rat :=
    match rest with
    | [] => if intPart = [] then none else some (digitsVal intPart)
    | '.' :: frac =>
      if frac.all Char.isDigit ∧ (intPart ≠ [] ∨ frac ≠ []) then
        some (kAdd (digitsVal intPart) (kDiv (digitsVal frac) ((10 ^ frac.length : Nat) : Rat)))
      else none
    | _ => none
  mag?.map fun v => if neg then -v else v

/-- Spelled-out numbers recognised on lines 303-306. -/
def numberWord? (s : String) : Option Nat :=
  if s = "one" then some 1
  else if s = "two" then some 2
  else if s = "three" then some 3
  else if s = "four" then some 4
  else if s = "five" then some 5
  else if s = "six" then some 6
  else if s = "seven" then some 7
  else if s = "eight" then some 8
  else none

/-- Lower-cased display name read with default empty (line 643). -/
def lowerName (a : POI) : String :=
  pyLower (a.name.getD "")

/-- Rating count read with default 0 (line 645). -/
def ratingCount (a : POI) : Nat :=
  a.user_ratings_total.getD 0

/-- Duration Estimator: estimate_visit_duration (lines 640-689), a pure
category/name/popularity lookup returning hours. Decimal constants are
written as explicit fractions (mkRat 5 2 is 2.5 and mkRat 3 2 is 1.5). -/
def estimate_visit_duration (a : POI) : Rat :=
  if a.types.contains "museum" then
    if 10000 ≤ ratingCount a then 3
    else if 5000 ≤ ratingCount a then mkRat 5 2
    else 2
  else if a.types.contains "art_gallery" then mkRat 3 2
  else if a.types.contains "park" then
    if 5000 ≤ ratingCount a then mkRat 5 2 else mkRat 3 2
  else if a.types.contains "zoo" ∨ a.types.contains "aquarium" then 3
  else if a.types.contains "amusement_park" ∨ a.types.contains "theme_park" then 4
  else if a.types.contains "beach" then mkRat 5 2
  else if a.types.contains "shopping_mall" then 2
  else if a.types.contains "restaurant" ∨ a.types.contains "cafe" then mkRat 3 2
  else if strContains (lowerName a) "historic" ∨ strContains (lowerName a) "castle" ∨
      strContains (lowerName a) "palace" then 2
  else if strContains (lowerName a) "cathedral" ∨ strContains (lowerName a) "church" ∨
      strContains (lowerName a) "temple" ∨ strContains (lowerName a) "shrine" then 1
  else if strContains (lowerName a) "garden" then mkRat 3 2
  else if a.types.contains "landmark" ∨ a.types.contains "monument" then 1
  else if 10000 ≤ ratingCount a then mkRat 5 2
  else if 5000 ≤ ratingCount a then 2
  else if 1000 ≤ ratingCount a then mkRat 3 2
  else 1

/-- Keyword table of extract_duration_from_reviews (lines 279-288), in the
source order of the Python dict (dicts preserve insertion order). -/
def time_keywords : List (String × Rat) :=
  [("hour", 1), ("hours", 1), ("hr", 1), ("hrs", 1),
   ("all day", 6), ("half an hour", mkRat 1 2), ("half day", 4), ("minutes", mkRat 1 60)]

/-- Inner word scan of lines 296-310: walk the words with their
predecessor; at the first word containing the keyword whose predecessor
parses as a number (float or spelled-out), yield that number times the
multiplier (the break on lines 301/311). A word whose predecessor parses
as neither is skipped and the scan continues. The word at index 0 is
excluded (i is required positive). -/
def firstKeywordMatch (kw : String) (mult : Rat) : String → List String → Option Rat
  | _, [] => none
  | prev, w :: rest =>
    if strContains w kw then
      match pyFloat? prev with
      | some v => some (kMul v mult)
      | none =>
        match numberWord? prev with
        | some n => some (kMul (n : Rat) mult)
        | none => firstKeywordMatch kw mult w rest
    else firstKeywordMatch kw mult w rest

/-- Matches contributed by one review text: for each keyword present in the
text (line 294), at most one value from the word scan. -/
def reviewDurations (text : String) : List Rat :=
  time_keywords.foldl
    (fun acc kv =>
      if strContains text kv.1 then
        match pySplit text with
        | [] => acc
        | w :: rest =>
          match firstKeywordMatch kv.1 kv.2 w rest with
          | some v => acc ++ [v]
          | none => acc
      else acc)
    []

/-- All duration mentions collected across the reviews (lines 290-310),
lower-cased first as on line 292. -/
def collectDurations (reviews : List Review) : List Rat :=
  reviews.foldl (fun acc r => acc ++ reviewDurations (pyLower r.text)) []

/-- Review Miner duration extraction: extract_duration_from_reviews (lines
277-318). With at least three collected values the code sorts them and
returns the element at index length / 2 (for an even count this is the
upper of the two middle elements, not their average); with one or two it
returns the mean; with none it returns None. The sort is modelled by a
stable insertion sort, and the in-range index read by getD. -/
def extract_duration_from_reviews (reviews : List Review) : Option Rat :=
  let durations := collectDurations reviews
  if 3 ≤ durations.length then
    some ((durations.insertionSort (· ≤ ·)).getD (durations.length / 2) 0)
  else if durations.length ≠ 0 then
    some (kDiv (durations.foldl kAdd 0) ((durations.length : Nat) : Rat))
  else none

example : extract_duration_from_reviews
    [⟨"I spent about 2 hours here"⟩, ⟨"took 2 hours total"⟩, ⟨"around 2 hrs"⟩] = some 2 := by
  decide

example : collectDurations [⟨"spent 1 hour"⟩, ⟨"waited 2 hr"⟩, ⟨"spent 3 hours"⟩]
    = [1, 2, 3, 3] := by decide

example : extract_duration_from_reviews
    [⟨"spent 1 hour"⟩, ⟨"waited 2 hr"⟩, ⟨"spent 3 hours"⟩] = some 3 := by decide

example : 0 < mkRat 5 2 := by decide

example : extract_duration_from_reviews [⟨"stayed 4 hours"⟩, ⟨"about 2 hr"⟩] = some 4 := by decide

/-- Calendar date as parsed by datetime.strptime with format %Y-%m-%d. -/
structure Date where
  year : Nat
  month : Nat
  day : Nat
deriving DecidableEq

/-- Gregorian leap-year rule, as in the datetime module. -/
def isLeapYear (y : Nat) : Bool :=
  (y % 4 = 0 ∧ y % 100 ≠ 0) ∨ y % 400 = 0

/-- Days in a month of a given year. -/
def daysInMonth (y m : Nat) : Nat :=
  if m = 2 then (if isLeapYear y then 29 else 28)
  else if m = 4 ∨ m = 6 ∨ m = 9 ∨ m = 11 then 30
  else 31

/-- Days in the months of year y before month m. -/
def daysBeforeMonth (y m : Nat) : Nat :=
  (List.range (m - 1)).foldl (fun a i => a + daysInMonth y (i + 1)) 0

/-- Proleptic Gregorian ordinal of a date, as date.toordinal: day 1 is
0001-01-01. Differences of ordinals model datetime subtraction in days. -/
def Date.toOrdinal (d : Date) : Nat :=
  let py := d.year - 1
  365 * py + py / 4 - py / 100 + py / 400 + daysBeforeMonth d.year d.month + d.day

/-- Weekday name of an ordinal day, as strftime %A: ordinal 1 is a Monday. -/
def weekdayName (ordinal : Nat) : String :=
  ["Monday", "Tuesday", "Wednesday", "Thursday", "Friday", "Saturday", "Sunday"].getD
    ((ordinal + 6) % 7) "Monday"

/-- Whether a string is a nonempty run of ASCII digits. -/
def allDigits (s : String) : Bool :=
  s.data ≠ [] && s.data.all Char.isDigit

/-- Natural number denoted by a digit string. -/
def natOfDigits (s : String) : Nat :=
  digitsVal s.data

/-- Python datetime.strptime(s, %Y-%m-%d), returning none where it raises
ValueError: three dash-separated digit groups (year up to four digits,
month and day up to two), month 1-12 and day valid for the month. -/
def parseDate (s : String) : Option Date :=
  match splitOnChar '-' s with
  | [ys, ms, ds] =>
    if allDigits ys ∧ allDigits ms ∧ allDigits ds ∧
        ys.data.length ≤ 4 ∧ ms.data.length ≤ 2 ∧ ds.data.length ≤ 2 then
      let y := natOfDigits ys
      let m := natOfDigits ms
      let d := natOfDigits ds
      if 1 ≤ y ∧ 1 ≤ m ∧ m ≤ 12 ∧ 1 ≤ d ∧ d ≤ daysInMonth y m then
        some ⟨y, m, d⟩
      else none
    else none
  | _ => none

/-- Python datetime.strptime(s, %H:%M), returning the minutes past
midnight, or none where it raises ValueError. -/
def parseTime (s : String) : Option Nat :=
  match splitOnChar ':' s with
  | [hs, ms] =>
    if allDigits hs ∧ allDigits ms ∧ hs.data.length ≤ 2 ∧ ms.data.length ≤ 2 then
      let h := natOfDigits hs
      let m := natOfDigits ms
      if h ≤ 23 ∧ m ≤ 59 then some (h * 60 + m) else none
    else none
  | _ => none

/-- Distance-matrix response pieces read by the code: the value field of a
duration entry (seconds). none models a missing or non-numeric value (on
which the Python lookup or arithmetic raises). -/
structure DmDuration where
  value : Option Rat
deriving DecidableEq

/-- One element of a distance-matrix row. -/
structure DmElement where
  duration : Option DmDuration
deriving DecidableEq

/-- One row of a distance-matrix response. -/
structure DmRow where
  elements : List DmElement
deriving DecidableEq

/-- Distance-matrix response restricted to the rows key the code reads. -/
structure DmResponse where
  rows : List DmRow
deriving DecidableEq

/-- Seconds extracted by rows[0].elements[0].duration.value from a
distance-matrix call outcome; none when the call raised or any access on
that path fails (in Python: KeyError, IndexError or TypeError, all caught
by the caller below). -/
def dmSeconds : Except PyErr DmResponse → Option Rat
  | .error _ => none
  | .ok r => (r.rows.head?.bind fun row => row.elements.head?).bind fun e =>
      e.duration.bind fun d => d.value

/-- Travel Time Resolver: get_travel_time (lines 763-775). Converts the
extracted seconds to minutes; on any failure of the call or of the
extraction it returns the fixed fallback of 30 minutes. Total: never
raises. -/
def get_travel_time (resp : Except PyErr DmResponse) : Rat :=
  match dmSeconds resp with
  | some secs => kDiv secs 60
  | none => 30

/-- Refined duration: calculate_duration (lines 259-275). The review
extraction wins when it yields a value Python treats as truthy (a nonzero
float); otherwise rating tiers scale the type-based estimate. Decimal
constants: mkRat 9 2 is 4.5, mkRat 7 2 is 3.5, mkRat 6 5 is 1.2 and
mkRat 4 5 is 0.8. -/
def calculate_duration (place_details : PlaceDetails) (a : POI) : Rat :=
  let base_duration := estimate_visit_duration a
  let rating := place_details.rating.getD 0
  let rating_count := place_details.user_ratings_total.getD 0
  let fromRating :=
    if mkRat 9 2 ≤ rating ∧ 1000 < rating_count then kMul base_duration (mkRat 6 5)
    else if rating ≤ mkRat 7 2 ∧ 500 < rating_count then kMul base_duration (mkRat 4 5)
    else base_duration
  match extract_duration_from_reviews place_details.reviews with
  | some d => if d = 0 then fromRating else d
  | none => fromRating

/-- Enrichment Resolver: get_visit_info (lines 172-223), with the cache
passed and returned explicitly and the place-details client as a function
parameter. The returned Nat counts collaborator queries issued by this
call. On a cache hit the cached profile is returned with no queries (lines
176-177). On a miss the defaults of lines 179-182 are computed, then one
gmaps.place query is issued; if it succeeds, line 195 stores the refined
duration under the misspelled dictionary key recommeded_duration, and line
196 then calls determine_optimal_time with a single argument although that
method takes two (hours and reviews), which raises TypeError; the except
on line 217 swallows it, so the remaining lines of the try block
(including the whole LLM step, lines 199-215) never run. Either way the
profile is cached under the place id (line 222, default id unkown as
spelled on line 175). -/
def get_visit_info (placeLookup : String → Except PyErr PlaceDetails) (a : POI)
    (cache : String → Option VisitInfo) :
    VisitInfo × (String → Option VisitInfo) × Nat :=
  let place_id := a.place_id.getD "unkown"
  match cache place_id with
  | some vi => (vi, cache, 0)
  | none =>
    let base : VisitInfo :=
      { recommended_duration := estimate_visit_duration a
        optimal_time := "Anytime during opening hours"
        recommeded_duration := none }
    let visit_info :=
      match placeLookup place_id with
      | .error _ => base
      | .ok place_details =>
        { base with recommeded_duration := some (calculate_duration place_details a) }
    (visit_info, fun k => if k = place_id then some visit_info else cache k, 1)

/-- Opening-hours check: is_open_on_date (lines 691-702). The cache is
consulted but the function is a stub that returns True regardless. -/
def is_open_on_date (cache : String → Option VisitInfo) (a : POI) (dateOrdinal : Nat) : Bool :=
  let _visit_info := cache (a.place_id.getD "unknown")
  let _ := dateOrdinal
  true

/-- Python set comprehension over POI dictionaries (lines 84-86): as soon
as one element passes the filter it must be hashed for insertion, and a
dict is unhashable, so the comprehension raises TypeError (the original
message quotes the word dict). With no passing element the result is the
empty set. -/
def pySetOfDicts (xs : List POI) : Except PyErr (List POI) :=
  if xs = [] then .ok [] else .error (.typeError "unhashable type: dict")

/-- Time-affinity score of lines 710-725: 3 when the optimal-time note
matches the current clock period, else 0. -/
def timeScore (cache : String → Option VisitInfo) (current_hour : Nat) (a : POI) : Nat :=
  let optimal_time :=
    pyLower (match cache (a.place_id.getD "unknown") with
      | some vi => vi.optimal_time
      | none => "")
  if strContains optimal_time "morning" ∧ current_hour < 12 then 3
  else if strContains optimal_time "afternoon" ∧ 12 ≤ current_hour ∧ current_hour < 17 then 3
  else if strContains optimal_time "evening" ∧ 17 ≤ current_hour then 3
  else 0

/-- Index of the first minimum of a list, as Python min over indices keyed
by the list values. -/
def argminIdx (l : List Rat) : Nat :=
  match l with
  | [] => 0
  | x :: xs =>
    (xs.foldl
      (fun (st : Nat × Rat × Nat) v =>
        if v < st.2.1 then (st.2.2, v, st.2.2 + 1) else (st.1, st.2.1, st.2.2 + 1))
      (0, x, 1)).1

/-- Per-element durations list of one distance-matrix response, as read on
lines 753-755: rows[0].elements, then duration.value of each element;
Python raises on a missing piece, modelled by the error cases. -/
def dmDurationsList (resp : Except PyErr DmResponse) : Except PyErr (List Rat) :=
  match resp with
  | .error e => .error e
  | .ok r =>
    match r.rows.head? with
    | none => .error (.indexError "list index out of range")
    | some row =>
      row.elements.mapM fun e =>
        match e.duration.bind fun d => d.value with
        | some v => Except.ok v
        | none => Except.error (.typeError "duration value missing")

/-- Nearest-neighbour ordering of one score group (the while loop of lines
744-759): query travel durations from the current position to every
remaining member, pop the first member with minimal duration, advance the
position to it. An empty durations list makes Python min raise ValueError;
a minimal index beyond the group makes pop raise IndexError. -/
def nnOrder (gdm : Coord → List Coord → Except PyErr DmResponse)
    (current : Coord) (group : List POI) : Except PyErr (List POI) :=
  match hg : group with
  | [] => .ok []
  | _ :: _ =>
    match dmDurationsList (gdm current (group.map fun a => a.location)) with
    | .error e => .error e
    | .ok durations =>
      if durations = [] then .error (.valueError "min arg is an empty sequence")
      else
        let idx := argminIdx durations
        match hi : group[idx]? with
        | none => .error (.indexError "pop index out of range")
        | some nearest =>
          match nnOrder gdm nearest.location (group.eraseIdx idx) with
          | .error e => .error e
          | .ok restOrdered => .ok (nearest :: restOrdered)
termination_by group.length
decreasing_by
  have hlt : idx < group.length := by
    by_contra hge
    rw [List.getElem?_eq_none (Nat.le_of_not_lt hge)] at hi
    exact Option.noConfusion hi
  rw [List.length_eraseIdx, if_pos hlt, ← hg]
  omega

/-- Sequential nearest-neighbour ordering of the score groups in
descending-score order (lines 742-759), threading the current position
from the tail of each ordered group into the next. -/
def sortGroups (gdm : Coord → List Coord → Except PyErr DmResponse) :
    List (List POI) → Coord → Except PyErr (List POI)
  | [], _ => .ok []
  | g :: gs, current =>
    match nnOrder gdm current g with
    | .error e => .error e
    | .ok ordered =>
      let nextCurrent :=
        match ordered.getLast? with
        | some p => p.location
        | none => current
      match sortGroups gdm gs nextCurrent with
      | .error e => .error e
      | .ok rest => .ok (ordered ++ rest)

/-- Ordering pass: sort_by_optimal_time_and_proximity (lines 704-761).
Scores every candidate, stably sorts by score descending (Python list.sort
with a key is stable), groups equal scores preserving that order (the
grouping dictionary of lines 731-735 iterated at line 742 in descending
key order), then orders each group by nearest-neighbour selection. The
caller passes current_hour 0 because the loop dates are midnight datetimes
(line 708 reads their hour attribute). -/
def sort_by_optimal_time_and_proximity (cache : String → Option VisitInfo)
    (gdm : Coord → List Coord → Except PyErr DmResponse) (current_hour : Nat)
    (start_location : Coord) (attractions : List POI) : Except PyErr (List POI) :=
  let scored := attractions.map fun a => (a, timeScore cache current_hour a)
  let sortedScored := scored.insertionSort fun x y => y.2 ≤ x.2
  let scores := (sortedScored.map fun x => x.2).dedup
  let groups := scores.map fun s => (sortedScored.filter fun x => x.2 = s).map fun x => x.1
  sortGroups gdm groups start_location

/-- One scheduled visit (the activity dictionary of lines 121-129).
start_time is kept in minutes past midnight of the day start date; the
Python dict stores its strftime rendering, and likewise formats duration
(hours) and travel_time (minutes) as strings. -/
structure Activity where
  start_time : Rat
  attraction : POI
  duration : Rat
  optimal_time : String
  travel_time : Rat
deriving DecidableEq

/-- Return-to-accommodation record of lines 144-148, times in minutes past
midnight of the day. -/
structure ReturnLeg where
  departure_time : Rat
  travel_time : Rat
  arrival_time : Rat
deriving DecidableEq

/-- One day of the returned schedule (lines 75-79, 89, 144-151). date is
the proleptic ordinal whose strftime renderings the dict stores as date
and day. -/
structure DayPlan where
  date : Nat
  day : String
  activities : List Activity
  note : Option String
  return_to_accomodation : Option ReturnLeg
deriving DecidableEq

/-- Cache lookup of lines 105-106 (default id unknown as on line 105). -/
def cachedVisitInfo (cache : String → Option VisitInfo) (attraction : POI) : Option VisitInfo :=
  cache (attraction.place_id.getD "unknown")

/-- Dwell hours of line 109: the recommended duration of the cached
profile, or the type-based estimate on a cache miss (a cached profile
always carries the key). -/
def durationHoursOf (cache : String → Option VisitInfo) (attraction : POI) : Rat :=
  match cachedVisitInfo cache attraction with
  | some vi => vi.recommended_duration
  | none => estimate_visit_duration attraction

/-- Advisory note of line 125; the cache-miss default is the misspelled
Not avaialable of the source. -/
def optimalTimeOf (cache : String → Option VisitInfo) (attraction : POI) : String :=
  match cachedVisitInfo cache attraction with
  | some vi => vi.optimal_time
  | none => "Not avaialable"

/-- Activity dictionary built on lines 121-129: start time is the arrival
(current time plus travel), and duration and travel time are recorded. -/
def mkActivity (cache : String → Option VisitInfo) (travelFn : Coord → Coord → Rat)
    (cur : Rat) (loc : Coord) (attraction : POI) : Activity :=
  { start_time := kAdd cur (travelFn loc attraction.location)
    attraction := attraction
    duration := durationHoursOf cache attraction
    optimal_time := optimalTimeOf cache attraction
    travel_time := travelFn loc attraction.location }

/-- Per-day activity loop of lines 104-135. Walks the ordered candidates:
stop at the first candidate whose dwell would pass the window end (lines
112-113); otherwise compute travel from the current position, append the
activity, remove the candidate from the unscheduled pool (line 132; Python
list.remove raises ValueError when the element is absent) and advance the
clock to arrival plus dwell and the position to the candidate (lines
134-135). Returns the activities, the remaining pool, the clock and the
position. -/
def actLoop (cache : String → Option VisitInfo) (travelFn : Coord → Coord → Rat)
    (endMin : Rat) :
    List POI → Rat → Coord → List POI → List Activity →
    Except PyErr (List Activity × List POI × Rat × Coord)
  | [], cur, loc, unscheduled, acts => .ok (acts, unscheduled, cur, loc)
  | attraction :: rest, cur, loc, unscheduled, acts =>
    if endMin < kAdd cur (kMul (durationHoursOf cache attraction) 60) then
      .ok (acts, unscheduled, cur, loc)
    else if attraction ∈ unscheduled then
      actLoop cache travelFn endMin rest
        (kAdd (kAdd cur (travelFn loc attraction.location)) (kMul (durationHoursOf cache attraction) 60))
        attraction.location (unscheduled.erase attraction)
        (acts ++ [mkActivity cache travelFn cur loc attraction])
    else .error (.valueError "list.remove(x): x not in list")

/-- Day-by-day loop of lines 70-151, recursing over the remaining day
offsets with the unscheduled pool and the plans accumulated so far. Each
day: stop once the pool is empty (lines 80-81); build the viable set
(lines 84-86, which raises for a nonempty pool of dict POIs); with an
empty viable set append a noted plan (lines 88-91); otherwise order the
candidates, run the activity loop from the accommodation at the window
start, and append the optional return leg (lines 137-148). -/
def tripDays (cache : String → Option VisitInfo)
    (gdm : Coord → List Coord → Except PyErr DmResponse)
    (startOrdinal startMin endMin : Nat) (acc : Coord) (ret : Bool) :
    List Nat → List POI → List DayPlan → Except PyErr (List DayPlan)
  | [], _, plans => .ok plans
  | day :: restDays, unscheduled, plans =>
    let dateOrdinal := startOrdinal + day
    if unscheduled = [] then .ok plans
    else
      match pySetOfDicts (unscheduled.filter fun x => is_open_on_date cache x dateOrdinal) with
      | .error e => .error e
      | .ok viable =>
        if viable = [] then
          tripDays cache gdm startOrdinal startMin endMin acc ret restDays unscheduled
            (plans ++ [{ date := dateOrdinal, day := weekdayName dateOrdinal,
                         activities := [],
                         note := some "No attractions available for this day based on opening hours",
                         return_to_accomodation := none }])
        else
          match sort_by_optimal_time_and_proximity cache gdm 0 acc viable with
          | .error e => .error e
          | .ok day_attractions =>
            match actLoop cache (fun o d => get_travel_time (gdm o [d])) (endMin : Rat)
                day_attractions (startMin : Rat) acc unscheduled [] with
            | .error e => .error e
            | .ok (acts, unscheduled2, cur2, loc2) =>
              let retLeg : Option ReturnLeg :=
                if ret ∧ loc2 ≠ acc ∧ acts ≠ [] then
                  let back := get_travel_time (gdm loc2 [acc])
                  some { departure_time := cur2, travel_time := back,
                         arrival_time := kAdd cur2 back }
                else none
              tripDays cache gdm startOrdinal startMin endMin acc ret restDays unscheduled2
                (plans ++ [{ date := dateOrdinal, day := weekdayName dateOrdinal,
                             activities := acts, note := none,
                             return_to_accomodation := retLeg }])

/-- Body of ScheduleOptimizer.execute (lines 51-153), the code guarded by
the try of line 51: parse the dates and times (strptime raises ValueError
on mismatch), resolve the accommodation fallback of lines 67-68, and run
the day loop over the inclusive day count of line 55. The prefetch of line
60 only populates the visit-info cache, modelled by the cache parameter.
The placeholder coordinate in the accommodation fallback is never read:
with no attractions the first day breaks before any use. -/
def executeBody (cache : String → Option VisitInfo)
    (gdm : Coord → List Coord → Except PyErr DmResponse)
    (attractions : List POI) (start_date end_date : String)
    (accomodation_location : Option Coord) (start_time end_time : String)
    (return_to_accomodation : Bool) : Except PyErr (List DayPlan) :=
  match parseDate start_date with
  | none => .error (.valueError ("time data " ++ start_date ++ " does not match format %Y-%m-%d"))
  | some startD =>
    match parseDate end_date with
    | none => .error (.valueError ("time data " ++ end_date ++ " does not match format %Y-%m-%d"))
    | some endD =>
      let duration_days : Int := (endD.toOrdinal : Int) - (startD.toOrdinal : Int) + 1
      match parseTime start_time with
      | none => .error (.valueError ("time data " ++ start_time ++ " does not match format %H:%M"))
      | some startMin =>
        match parseTime end_time with
        | none => .error (.valueError ("time data " ++ end_time ++ " does not match format %H:%M"))
        | some endMin =>
          let acc : Coord :=
            match accomodation_location, attractions with
            | some c, _ => c
            | none, a :: _ => a.location
            | none, [] => ⟨0, 0⟩
          tripDays cache gdm startD.toOrdinal startMin endMin acc return_to_accomodation
            (List.range duration_days.toNat) attractions []

/-- Result of ScheduleOptimizer.execute: either the daily schedules list
or the error dictionary built on line 156. -/
inductive ExecResult where
  | plans : List DayPlan → ExecResult
  | error : String → ExecResult
deriving DecidableEq

/-- Trip Scheduler entry point: ScheduleOptimizer.execute (lines 36-156).
The try of line 51 spans the whole body; any exception is converted on
line 156 into a dictionary carrying an error message. -/
def execute (cache : String → Option VisitInfo)
    (gdm : Coord → List Coord → Except PyErr DmResponse)
    (attractions : List POI) (start_date end_date : String)
    (accomodation_location : Option Coord) (start_time end_time : String)
    (return_to_accomodation : Bool) : ExecResult :=
  match executeBody cache gdm attractions start_date end_date accomodation_location
      start_time end_time return_to_accomodation with
  | .ok daily_schedules => .plans daily_schedules
  | .error e => .error ("Error optimizing schedule: " ++ e.msg)

lemma pos_ite {c : Prop} [Decidable c] {x y : Rat} (hx : 0 < x) (hy : 0 < y) :
    0 < if c then x else y := by
  by_cases h : c
  · rwa [if_pos h]
  · rwa [if_neg h]

lemma estimate_visit_duration_pos (a : POI) : 0 < estimate_visit_duration a := by
  unfold estimate_visit_duration
  repeat' (first | decide | apply pos_ite)

lemma durationHoursOf_nonneg (cache : String → Option VisitInfo)
    (hc : ∀ pid vi, cache pid = some vi → 0 ≤ vi.recommended_duration) (a : POI) :
    0 ≤ durationHoursOf cache a := by
  unfold durationHoursOf cachedVisitInfo
  cases h : cache (a.place_id.getD "unknown") with
  | some vi => exact hc _ _ h
  | none => exact le_of_lt (estimate_visit_duration_pos a)

lemma tripDays_nil_pool (cache : String → Option VisitInfo)
    (gdm : Coord → List Coord → Except PyErr DmResponse)
    (so sm em : Nat) (acc : Coord) (ret : Bool) (days : List Nat) (plans : List DayPlan) :
    tripDays cache gdm so sm em acc ret days [] plans = .ok plans := by
  cases days with
  | nil => rw [tripDays]
  | cons d rest => rw [tripDays, if_pos rfl]

lemma tripDays_ok_eq (cache : String → Option VisitInfo)
    (gdm : Coord → List Coord → Except PyErr DmResponse)
    (so sm em : Nat) (acc : Coord) (ret : Bool) :
    ∀ (days : List Nat) (unsched : List POI) (plans ps : List DayPlan),
      tripDays cache gdm so sm em acc ret days unsched plans = .ok ps → ps = plans := by
  intro days
  induction days with
  | nil =>
    intro unsched plans ps h
    simp only [tripDays] at h
    exact (Except.ok.injEq _ _ |>.mp h).symm
  | cons d rest ih =>
    intro unsched plans ps h
    by_cases hu : unsched = []
    · subst hu
      rw [tripDays_nil_pool] at h
      exact (Except.ok.injEq _ _ |>.mp h).symm
    · rw [tripDays] at h
      rw [if_neg hu] at h
      have hfilter : (unsched.filter fun x => is_open_on_date cache x (so + d)) = unsched := by
        simp [is_open_on_date]
      rw [hfilter, pySetOfDicts, if_neg hu] at h
      exact absurd h (by simp)

lemma executeBody_ok_nil (cache : String → Option VisitInfo)
    (gdm : Coord → List Coord → Except PyErr DmResponse)
    (attractions : List POI) (sd ed : String) (acc : Option Coord) (st et : String)
    (ret : Bool) (ps : List DayPlan)
    (h : executeBody cache gdm attractions sd ed acc st et ret = .ok ps) : ps = [] := by
  unfold executeBody at h
  cases hsd : parseDate sd with
  | none => rw [hsd] at h; exact absurd h (by simp)
  | some d1 =>
    rw [hsd] at h
    cases hed : parseDate ed with
    | none => rw [hed] at h; exact absurd h (by simp)
    | some d2 =>
      rw [hed] at h
      cases hst : parseTime st with
      | none => rw [hst] at h; exact absurd h (by simp)
      | some t1 =>
        rw [hst] at h
        cases het : parseTime et with
        | none => rw [het] at h; exact absurd h (by simp)
        | some t2 =>
          rw [het] at h
          exact tripDays_ok_eq _ _ _ _ _ _ _ _ _ _ _ h

lemma actLoop_acts_take (cache : String → Option VisitInfo) (travelFn : Coord → Coord → Rat)
    (endMin : Rat) :
    ∀ (cands : List POI) (cur : Rat) (loc : Coord) (unsched : List POI)
      (acts facts : List Activity) (fpool : List POI) (fcur : Rat) (floc : Coord),
      actLoop cache travelFn endMin cands cur loc unsched acts = .ok (facts, fpool, fcur, floc) →
      ∃ k, facts.map (fun t => t.attraction)
        = acts.map (fun t => t.attraction) ++ (cands.take k).map id := by
  intro cands
  induction cands with
  | nil =>
    intro cur loc unsched acts facts fpool fcur floc h
    rw [actLoop] at h
    simp only [Except.ok.injEq, Prod.mk.injEq] at h
    obtain ⟨ha, _, _, _⟩ := h
    exact ⟨0, by simp [ha]⟩
  | cons a rest ih =>
    intro cur loc unsched acts facts fpool fcur floc h
    rw [actLoop] at h
    by_cases hbreak : endMin < kAdd cur (kMul (durationHoursOf cache a) 60)
    · rw [if_pos hbreak] at h
      simp only [Except.ok.injEq, Prod.mk.injEq] at h
      obtain ⟨ha, _, _, _⟩ := h
      exact ⟨0, by simp [ha]⟩
    · rw [if_neg hbreak] at h
      by_cases hmem : a ∈ unsched
      · rw [if_pos hmem] at h
        obtain ⟨k, hk⟩ := ih _ _ _ _ _ _ _ _ h
        refine ⟨k + 1, ?_⟩
        rw [hk]
        simp [mkActivity, List.take_succ_cons]
      · rw [if_neg hmem] at h
        exact absurd h (by simp)

lemma actLoop_pool_subset (cache : String → Option VisitInfo) (travelFn : Coord → Coord → Rat)
    (endMin : Rat) :
    ∀ (cands : List POI) (cur : Rat) (loc : Coord) (unsched : List POI)
      (acts facts : List Activity) (fpool : List POI) (fcur : Rat) (floc : Coord),
      actLoop cache travelFn endMin cands cur loc unsched acts = .ok (facts, fpool, fcur, floc) →
      fpool ⊆ unsched := by
  intro cands
  induction cands with
  | nil =>
    intro cur loc unsched acts facts fpool fcur floc h
    rw [actLoop] at h
    simp only [Except.ok.injEq, Prod.mk.injEq] at h
    obtain ⟨_, hp, _, _⟩ := h
    subst hp
    exact List.Subset.refl _
  | cons a rest ih =>
    intro cur loc unsched acts facts fpool fcur floc h
    rw [actLoop] at h
    by_cases hbreak : endMin < kAdd cur (kMul (durationHoursOf cache a) 60)
    · rw [if_pos hbreak] at h
      simp only [Except.ok.injEq, Prod.mk.injEq] at h
      obtain ⟨_, hp, _, _⟩ := h
      subst hp
      exact List.Subset.refl _
    · rw [if_neg hbreak] at h
      by_cases hmem : a ∈ unsched
      · rw [if_pos hmem] at h
        exact (ih _ _ _ _ _ _ _ _ h).trans (List.erase_subset _ _)
      · rw [if_neg hmem] at h
        exact absurd h (by simp)

lemma actLoop_removed (cache : String → Option VisitInfo) (travelFn : Coord → Coord → Rat)
    (endMin : Rat) :
    ∀ (cands : List POI) (cur : Rat) (loc : Coord) (unsched : List POI)
      (acts facts : List Activity) (fpool : List POI) (fcur : Rat) (floc : Coord),
      unsched.Nodup →
      actLoop cache travelFn endMin cands cur loc unsched acts = .ok (facts, fpool, fcur, floc) →
      ∀ x, x ∈ facts.map (fun t => t.attraction) → x ∉ acts.map (fun t => t.attraction) →
        x ∉ fpool := by
  intro cands
  induction cands with
  | nil =>
    intro cur loc unsched acts facts fpool fcur floc _ h x hxf hxa
    rw [actLoop] at h
    simp only [Except.ok.injEq, Prod.mk.injEq] at h
    obtain ⟨ha, _, _, _⟩ := h
    exact absurd (ha ▸ hxf) hxa
  | cons a rest ih =>
    intro cur loc unsched acts facts fpool fcur floc hnd h x hxf hxa
    rw [actLoop] at h
    by_cases hbreak : endMin < kAdd cur (kMul (durationHoursOf cache a) 60)
    · rw [if_pos hbreak] at h
      simp only [Except.ok.injEq, Prod.mk.injEq] at h
      obtain ⟨ha, _, _, _⟩ := h
      exact absurd (ha ▸ hxf) hxa
    · rw [if_neg hbreak] at h
      by_cases hmem : a ∈ unsched
      · rw [if_pos hmem] at h
        by_cases hxa2 : x ∈ ((acts ++ [mkActivity cache travelFn cur loc a]).map fun t => t.attraction)
        · have hxeq : x = a := by
            simp only [List.map_append, List.mem_append] at hxa2
            rcases hxa2 with h1 | h2
            · exact absurd h1 hxa
            · simpa [mkActivity] using h2
          subst hxeq
          have hsub := actLoop_pool_subset cache travelFn endMin _ _ _ _ _ _ _ _ _ h
          intro hmem2
          have hxe := hsub hmem2
          rw [List.Nodup.mem_erase_iff hnd] at hxe
          exact hxe.1 rfl
        · exact ih _ _ _ _ _ _ _ _ (hnd.erase a) h x hxf hxa2
      · rw [if_neg hmem] at h
        exact absurd h (by simp)

lemma actLoop_monotone (cache : String → Option VisitInfo) (travelFn : Coord → Coord → Rat)
    (endMin : Rat)
    (hc : ∀ pid vi, cache pid = some vi → 0 ≤ vi.recommended_duration)
    (ht : ∀ o d, 0 ≤ travelFn o d) :
    ∀ (cands : List POI) (cur : Rat) (loc : Coord) (unsched : List POI)
      (acts facts : List Activity) (fpool : List POI) (fcur : Rat) (floc : Coord),
      acts.Pairwise (fun s t => s.start_time ≤ t.start_time) →
      (∀ b ∈ acts, b.start_time ≤ cur) →
      actLoop cache travelFn endMin cands cur loc unsched acts = .ok (facts, fpool, fcur, floc) →
      facts.Pairwise (fun s t => s.start_time ≤ t.start_time) := by
  intro cands
  induction cands with
  | nil =>
    intro cur loc unsched acts facts fpool fcur floc hpw _ h
    rw [actLoop] at h
    simp only [Except.ok.injEq, Prod.mk.injEq] at h
    obtain ⟨ha, _, _, _⟩ := h
    exact ha ▸ hpw
  | cons a rest ih =>
    intro cur loc unsched acts facts fpool fcur floc hpw hbound h
    rw [actLoop] at h
    by_cases hbreak : endMin < kAdd cur (kMul (durationHoursOf cache a) 60)
    · rw [if_pos hbreak] at h
      simp only [Except.ok.injEq, Prod.mk.injEq] at h
      obtain ⟨ha, _, _, _⟩ := h
      exact ha ▸ hpw
    · rw [if_neg hbreak] at h
      by_cases hmem : a ∈ unsched
      · rw [if_pos hmem] at h
        have hd : (0:Rat) ≤ durationHoursOf cache a := durationHoursOf_nonneg cache hc a
        have htl : (0:Rat) ≤ travelFn loc a.location := ht loc a.location
        have hd60 : (0:Rat) ≤ durationHoursOf cache a * 60 := by positivity
        refine ih _ _ _ _ _ _ _ _ ?_ ?_ h
        · rw [List.pairwise_append]
          refine ⟨hpw, List.pairwise_singleton _ _, ?_⟩
          intro s hs t htmem
          have hts : t = mkActivity cache travelFn cur loc a := by simpa using htmem
          subst hts
          have hsc := hbound s hs
          simp only [mkActivity, kAdd_eq]
          linarith
        · intro b hb
          simp only [kAdd_eq, kMul_eq]
          rcases List.mem_append.mp hb with h1 | h2
          · have := hbound b h1
            linarith
          · have hbm : b = mkActivity cache travelFn cur loc a := by simpa using h2
            subst hbm
            simp only [mkActivity, kAdd_eq]
            linarith
      · rw [if_neg hmem] at h
        exact absurd h (by simp)

/-- Fixture: a museum POI used for the concrete two-day trip of C1. -/
def c1poi : POI :=
  { place_id := some "poi-1", name := some "City Museum", types := ["museum"],
    user_ratings_total := some 100, location := ⟨10, 20⟩ }

/-- Fixture: prefetched cache giving the C1 POI a dwell of 1.0 hours. -/
def c1cache : String → Option VisitInfo := fun pid =>
  if pid = "poi-1" then
    some { recommended_duration := 1, optimal_time := "Anytime during opening hours",
           recommeded_duration := none }
  else none

/-- Fixture: distance-matrix collaborator answering 900 seconds (15
minutes) for every pair. -/
def c1gdm : Coord → List Coord → Except PyErr DmResponse := fun _ ds =>
  .ok ⟨[⟨ds.map fun _ => ⟨some ⟨some 900⟩⟩⟩]⟩

/-- C1: the claim expects the 2-day trip (start 2024-06-01, end 2024-06-02,
one POI with dwell 1.0h, window 09:00-21:00, return policy on, fixed
15-minute travel) to yield two DayPlans, day 1 with one 09:15-10:15
Activity plus a 10:15-10:30 Return Leg. The code instead raises TypeError
while building the per-day viable set (a Python set of dict POIs, lines
84-86) and the top-level except converts the run into the error
dictionary, so the scheduler returns an error value, not DayPlans. This
theorem evaluates the model at exactly that failing input. -/
theorem c1_concrete_trip_returns_error_dict :
    execute c1cache c1gdm [c1poi] "2024-06-01" "2024-06-02" (some ⟨0, 0⟩) "9:00" "21:00" true
      = .error "Error optimizing schedule: unhashable type: dict" := by
  decide

/-- Fixture: POI with no tags, no rating volume and an unmatching name, so
its type-based estimate is the 1.0-hour default. -/
def c2poi : POI :=
  { place_id := some "poi-2", name := some "Quiet Corner", types := [],
    user_ratings_total := some 0, location := ⟨1, 2⟩ }

/-- Fixture: review snippets whose extracted duration is 2.0 hours. -/
def c2reviews : List Review :=
  [⟨"I spent about 2 hours here"⟩, ⟨"took 2 hours total"⟩, ⟨"around 2 hrs"⟩]

/-- Fixture: successful place-details lookup carrying the C2 reviews. -/
def c2place : String → Except PyErr PlaceDetails := fun _ =>
  .ok { rating := some (mkRat 24 5), user_ratings_total := some 12, reviews := c2reviews }

/-- C2: the claim says a successful place lookup whose reviews yield a
duration estimate (here 2.0 hours) makes the returned profile carry that
value as its recommended dwell. In the code the refined value is stored
under the misspelled key recommeded_duration (line 195) and the next line
calls determine_optimal_time with one argument though it takes two, so the
TypeError aborts the try block; the profile keeps the type-based default
1.0 and the placeholder note, and the review value sits only under the
typo key. -/
theorem c2_enrichment_typo_keeps_type_default :
    extract_duration_from_reviews c2reviews = some 2 ∧
    (get_visit_info c2place c2poi fun _ => none).1.recommended_duration = 1 ∧
    ¬ (get_visit_info c2place c2poi fun _ => none).1.recommended_duration = 2 ∧
    (get_visit_info c2place c2poi fun _ => none).1.recommeded_duration = some 2 ∧
    (get_visit_info c2place c2poi fun _ => none).1.optimal_time
      = "Anytime during opening hours" := by
  decide

/-- Fixture: failing distance-matrix collaborator (never consulted on the
paths exercised for C3). -/
def c3gdm : Coord → List Coord → Except PyErr DmResponse := fun _ _ =>
  .error (.typeError "network down")

/-- C3 counterexample: the claim says an empty POI pool surfaces as a
top-level scheduling failure value carrying a message. With valid dates
and an empty pool the code instead returns the normal (empty) DayPlan
sequence: the day loop breaks immediately and the list of daily schedules
is returned. -/
theorem c3_empty_pool_yields_plain_sequence :
    execute (fun _ => none) c3gdm [] "2024-06-01" "2024-06-02" none "9:00" "21:00" true
      = .plans [] := by
  decide

/-- C3 amended: an unparsable start or end date surfaces as a top-level
failure value carrying a message (and no exception escapes, the entry
point being total), while an empty POI pool yields the normal empty
DayPlan sequence rather than a failure value. -/
theorem c3_invalid_dates_error_empty_pool_plans :
    (∀ cache gdm attractions sd ed acc st et ret,
        parseDate sd = none ∨ parseDate ed = none →
        ∃ m, execute cache gdm attractions sd ed acc st et ret = .error m) ∧
    (∀ cache gdm sd ed acc st et ret d1 d2 t1 t2,
        parseDate sd = some d1 → parseDate ed = some d2 →
        parseTime st = some t1 → parseTime et = some t2 →
        execute cache gdm [] sd ed acc st et ret = .plans []) := by
  constructor
  · intro cache gdm attractions sd ed acc st et ret h
    rcases h with h | h
    · exact ⟨_, by unfold execute executeBody; rw [h]⟩
    · cases hsd : parseDate sd with
      | none => exact ⟨_, by unfold execute executeBody; rw [hsd]⟩
      | some d1 => exact ⟨_, by unfold execute executeBody; rw [hsd, h]⟩
  · intro cache gdm sd ed acc st et ret d1 d2 t1 t2 h1 h2 h3 h4
    unfold execute executeBody
    rw [h1, h2, h3, h4]
    simp only [tripDays_nil_pool]

/-- Witness for C3: the amended theorem applied at a malformed date
(month 13) and at an empty pool with valid input. -/
theorem c3_invalid_dates_error_empty_pool_plans_witness :
    (∃ m, execute (fun _ => none) c3gdm [] "2024-13-01" "2024-06-02" none "9:00" "21:00" true
        = .error m) ∧
    execute (fun _ => none) c3gdm [] "2024-06-01" "2024-06-02" none "9:00" "21:00" false
      = .plans [] :=
  ⟨c3_invalid_dates_error_empty_pool_plans.1 _ _ _ _ _ _ _ _ _ (Or.inl (by decide)),
   c3_invalid_dates_error_empty_pool_plans.2 _ _ _ _ _ _ _ _ ⟨2024, 6, 1⟩ ⟨2024, 6, 2⟩ 540 1260
     (by decide) (by decide) (by decide) (by decide)⟩

/-- C4: enrichment is cache-idempotent. For every collaborator, POI and
starting cache, running get_visit_info twice returns the same profile the
second time, leaves the cache of the first call untouched, issues no
collaborator query on the second call, and issues at most one query across
both calls. -/
theorem c4_visit_info_cache_idempotent
    (placeLookup : String → Except PyErr PlaceDetails) (a : POI)
    (cache : String → Option VisitInfo) :
    (get_visit_info placeLookup a (get_visit_info placeLookup a cache).2.1).1
      = (get_visit_info placeLookup a cache).1 ∧
    (get_visit_info placeLookup a (get_visit_info placeLookup a cache).2.1).2.1
      = (get_visit_info placeLookup a cache).2.1 ∧
    (get_visit_info placeLookup a (get_visit_info placeLookup a cache).2.1).2.2 = 0 ∧
    (get_visit_info placeLookup a cache).2.2
      + (get_visit_info placeLookup a (get_visit_info placeLookup a cache).2.1).2.2 ≤ 1 := by
  unfold get_visit_info
  cases h : cache (a.place_id.getD "unkown") with
  | some vi => simp [h]
  | none => simp [h]

/-- C5 counterexample: the snippets contain the numeric time-unit matches
1, 2 and 3 (hours), whose median is 2; counting the double collection of
the hours snippet under both the hour and the hours keyword, the collected
list is 1, 2, 3, 3, whose median is 5/2. The claim therefore predicts 2.0
(or at most 2.5); the code returns 3.0, the element at index length / 2 of
the sorted collected list. -/
theorem c5_upper_median_counterexample :
    extract_duration_from_reviews [⟨"spent 1 hour"⟩, ⟨"waited 2 hr"⟩, ⟨"spent 3 hours"⟩]
      = some 3 ∧
    collectDurations [⟨"spent 1 hour"⟩, ⟨"waited 2 hr"⟩, ⟨"spent 3 hours"⟩] = [1, 2, 3, 3] ∧
    (3 : Rat) ≠ 2 ∧ (3 : Rat) ≠ mkRat 5 2 := by
  decide

/-- C5 amended: the extractor collects at most one numeric match per
snippet and per time-unit keyword (overlapping keywords such as hour and
hours both contribute); with at least 3 collected values it returns the
element at index length / 2 of the sorted collected list (the upper
median), with 1 or 2 the mean, and with none null; on the three 2-hour
snippets it returns 2.0. -/
theorem c5_duration_extraction_amended :
    extract_duration_from_reviews
        [⟨"I spent about 2 hours here"⟩, ⟨"took 2 hours total"⟩, ⟨"around 2 hrs"⟩] = some 2 ∧
    (∀ reviews, 3 ≤ (collectDurations reviews).length →
        extract_duration_from_reviews reviews
          = some (((collectDurations reviews).insertionSort fun x y => x ≤ y).getD
              ((collectDurations reviews).length / 2) 0)) ∧
    (∀ reviews, (collectDurations reviews).length = 1 ∨ (collectDurations reviews).length = 2 →
        extract_duration_from_reviews reviews
          = some (kDiv ((collectDurations reviews).foldl kAdd 0)
              ((collectDurations reviews).length : Rat))) ∧
    (∀ reviews, collectDurations reviews = [] →
        extract_duration_from_reviews reviews = none) := by
  refine ⟨by decide, ?_, ?_, ?_⟩
  · intro rs h
    simp only [extract_duration_from_reviews]
    rw [if_pos h]
  · intro rs h
    have h3 : ¬ 3 ≤ (collectDurations rs).length := by rcases h with h | h <;> omega
    have h0 : (collectDurations rs).length ≠ 0 := by rcases h with h | h <;> omega
    simp only [extract_duration_from_reviews]
    rw [if_neg h3, if_pos h0]
  · intro rs h
    simp [extract_duration_from_reviews, h]

/-- Witness for C5: the amended theorem applied on a 3-match list (median
branch, value 4) and on a matchless list (null branch). -/
theorem c5_duration_extraction_amended_witness :
    extract_duration_from_reviews [⟨"stayed 4 hours"⟩, ⟨"about 2 hr"⟩] = some 4 ∧
    extract_duration_from_reviews [⟨"nice place"⟩] = none := by
  constructor
  · rw [c5_duration_extraction_amended.2.1 [⟨"stayed 4 hours"⟩, ⟨"about 2 hr"⟩] (by decide)]
    decide
  · exact c5_duration_extraction_amended.2.2.2 [⟨"nice place"⟩] (by decide)

/-- C6: the Travel Time Resolver is a total function of the collaborator
outcome (it never raises), and whenever the distance-matrix call raised or
its response does not carry the rows-elements-duration-value path (empty
or malformed), it returns exactly 30 minutes. -/
theorem c6_travel_time_fallback_thirty (resp : Except PyErr DmResponse)
    (h : dmSeconds resp = none) : get_travel_time resp = 30 := by
  unfold get_travel_time
  rw [h]

/-- Witness for C6: a raising call and an empty-rows response both hit the
fallback. -/
theorem c6_travel_time_fallback_thirty_witness :
    dmSeconds (.error (.typeError "connection reset")) = none ∧
    get_travel_time (.error (.typeError "connection reset")) = 30 ∧
    dmSeconds (.ok ⟨[]⟩) = none ∧
    get_travel_time (.ok ⟨[]⟩) = 30 :=
  ⟨rfl, c6_travel_time_fallback_thirty _ rfl, rfl,
   c6_travel_time_fallback_thirty _ rfl⟩

lemma execute_plans_nil (cache : String → Option VisitInfo)
    (gdm : Coord → List Coord → Except PyErr DmResponse)
    (attractions : List POI) (sd ed : String) (acc : Option Coord) (st et : String)
    (ret : Bool) (ps : List DayPlan)
    (h : execute cache gdm attractions sd ed acc st et ret = .plans ps) : ps = [] := by
  unfold execute at h
  cases hb : executeBody cache gdm attractions sd ed acc st et ret with
  | ok ds =>
    rw [hb] at h
    have hds : ds = ps := by simpa using h
    exact hds ▸ executeBody_ok_nil _ _ _ _ _ _ _ _ _ _ hb
  | error e =>
    rw [hb] at h
    exact absurd h (by simp)

/-- C7: across every returned schedule, each POI appears in at most one
Activity and every scheduled POI comes from the input pool; and in the
per-day loop itself scheduling is consuming: the scheduled POIs are an
initial segment of the candidate order (so with distinct candidates no POI
is scheduled twice), every scheduled POI belongs to the candidates, and
each is removed from the remaining pool. -/
theorem c7_each_poi_scheduled_at_most_once :
    (∀ cache gdm attractions sd ed acc st et ret ps,
        execute cache gdm attractions sd ed acc st et ret = .plans ps →
        ((ps.flatMap fun p => p.activities.map fun t => t.attraction).Nodup ∧
          ∀ x ∈ ps.flatMap fun p => p.activities.map fun t => t.attraction, x ∈ attractions)) ∧
    (∀ cache travelFn endMin cands cur loc unsched facts fpool fcur floc,
        actLoop cache travelFn endMin cands cur loc unsched [] = .ok (facts, fpool, fcur, floc) →
        ((∀ x ∈ facts.map fun t => t.attraction, x ∈ cands) ∧
          (cands.Nodup → (facts.map fun t => t.attraction).Nodup) ∧
          (unsched.Nodup → ∀ x ∈ facts.map fun t => t.attraction, x ∉ fpool))) := by
  constructor
  · intro cache gdm attractions sd ed acc st et ret ps h
    have hnil := execute_plans_nil _ _ _ _ _ _ _ _ _ _ h
    subst hnil
    simp
  · intro cache travelFn endMin cands cur loc unsched facts fpool fcur floc h
    obtain ⟨k, hk⟩ := actLoop_acts_take cache travelFn endMin _ _ _ _ _ _ _ _ _ h
    simp only [List.map_nil, List.nil_append, List.map_id] at hk
    refine ⟨?_, ?_, ?_⟩
    · intro x hx
      rw [hk] at hx
      exact List.take_subset _ _ hx
    · intro hnd
      rw [hk]
      exact hnd.sublist (List.take_sublist _ _)
    · intro hnd x hx
      exact actLoop_removed cache travelFn endMin _ _ _ _ _ _ _ _ _ hnd h x hx (by simp)

/-- Fixture: first witness POI for the day-loop runs. -/
def pw1 : POI :=
  { place_id := some "w-1", name := none, types := [], user_ratings_total := none,
    location := ⟨3, 4⟩ }

/-- Fixture: second witness POI for the day-loop runs. -/
def pw2 : POI :=
  { place_id := some "w-2", name := none, types := [], user_ratings_total := none,
    location := ⟨5, 6⟩ }

/-- Fixture: cached profile with a one-hour dwell. -/
def wvi : VisitInfo :=
  { recommended_duration := 1, optimal_time := "morning is best", recommeded_duration := none }

/-- Fixture: cache answering the witness profile for every id. -/
def wcache : String → Option VisitInfo := fun _ => some wvi

/-- Fixture: first activity of the witness day-loop run (arrival 09:15). -/
def wact1 : Activity :=
  { start_time := 555, attraction := pw1, duration := 1,
    optimal_time := "morning is best", travel_time := 15 }

/-- Fixture: second activity of the witness day-loop run (arrival 10:30). -/
def wact2 : Activity :=
  { start_time := 630, attraction := pw2, duration := 1,
    optimal_time := "morning is best", travel_time := 15 }

/-- Witness for C7: the loop-level part applied to a concrete two-POI run
(window 09:00-21:00, travel 15 minutes, dwell one hour). -/
theorem c7_each_poi_scheduled_at_most_once_witness :
    pw1 ∈ [pw1, pw2] ∧ pw1 ∉ ([] : List POI) := by
  have h := c7_each_poi_scheduled_at_most_once.2 wcache (fun _ _ => 15) 1260 [pw1, pw2] 540
    ⟨0, 0⟩ [pw1, pw2] [wact1, wact2] [] 690 ⟨5, 6⟩ (by decide)
  exact ⟨h.1 pw1 (by decide), h.2.2 (by decide) pw1 (by decide)⟩

/-- C8: activities of every returned DayPlan are in non-decreasing
start-time order; and in the per-day loop, whenever the cached dwell
durations and the travel times are non-negative, the appended activities
are chronologically sorted, each start time being the advancing clock plus
the travel time. -/
theorem c8_activities_chronological :
    (∀ cache gdm attractions sd ed acc st et ret ps,
        execute cache gdm attractions sd ed acc st et ret = .plans ps →
        ∀ plan ∈ ps, plan.activities.Pairwise fun s t => s.start_time ≤ t.start_time) ∧
    (∀ cache travelFn endMin cands cur loc unsched facts fpool fcur floc,
        (∀ pid vi, cache pid = some vi → 0 ≤ vi.recommended_duration) →
        (∀ o d, 0 ≤ travelFn o d) →
        actLoop cache travelFn endMin cands cur loc unsched [] = .ok (facts, fpool, fcur, floc) →
        facts.Pairwise fun s t => s.start_time ≤ t.start_time) := by
  constructor
  · intro cache gdm attractions sd ed acc st et ret ps h plan hplan
    have hnil := execute_plans_nil _ _ _ _ _ _ _ _ _ _ h
    subst hnil
    exact absurd hplan (List.not_mem_nil _)
  · intro cache travelFn endMin cands cur loc unsched facts fpool fcur floc hc ht h
    exact actLoop_monotone cache travelFn endMin hc ht _ _ _ _ _ _ _ _ _
      List.Pairwise.nil (by simp) h

/-- Witness for C8: the loop-level part applied to the concrete two-POI
run; the produced starts 555 and 630 minutes are sorted. -/
theorem c8_activities_chronological_witness :
    [wact1, wact2].Pairwise fun s t => s.start_time ≤ t.start_time := by
  refine c8_activities_chronological.2 wcache (fun _ _ => 15) 1260 [pw1, pw2] 540 ⟨0, 0⟩
    [pw1, pw2] [wact1, wact2] [] 690 ⟨5, 6⟩ ?_ ?_ (by decide)
  · intro pid vi h
    injection h with h2
    rw [← h2]
    decide
  · intro o d
    show (0 : Rat) ≤ 15
    decide

/-- C9: the Duration Estimator is total and strictly positive on every
POI, whatever combination of tags, name and rating count (all possibly
absent) it carries. -/
theorem c9_duration_estimate_positive (a : POI) : 0 < estimate_visit_duration a :=
  estimate_visit_duration_pos a

/-- C10: the scheduling entry point is total; whatever exception the body
raises (date parsing, the set-of-dicts viability filter, ordering or
travel lookups), execute converts it into the error dictionary carrying
the message, and never propagates it. -/
theorem c10_execute_converts_exceptions (cache : String → Option VisitInfo)
    (gdm : Coord → List Coord → Except PyErr DmResponse)
    (attractions : List POI) (sd ed : String) (acc : Option Coord) (st et : String)
    (ret : Bool) (e : PyErr)
    (h : executeBody cache gdm attractions sd ed acc st et ret = .error e) :
    execute cache gdm attractions sd ed acc st et ret
      = .error ("Error optimizing schedule: " ++ e.msg) := by
  unfold execute
  rw [h]

/-- Fixture: POI for the C10 witness run. -/
def c10poi : POI :=
  { place_id := some "poi-10", name := none, types := ["park"],
    user_ratings_total := none, location := ⟨7, 8⟩ }

/-- Fixture: distance-matrix collaborator that always raises. -/
def c10gdm : Coord → List Coord → Except PyErr DmResponse := fun _ _ =>
  .error (.typeError "network down")

/-- Witness for C10: on a three-day trip with a nonempty pool the body
raises the set-of-dicts TypeError and execute returns the error value. -/
theorem c10_execute_converts_exceptions_witness :
    execute (fun _ => none) c10gdm [c10poi] "2024-06-01" "2024-06-03" (some ⟨0, 0⟩)
      "9:00" "21:00" false
      = .error "Error optimizing schedule: unhashable type: dict" := by
  rw [c10_execute_converts_exceptions (fun _ => none) c10gdm [c10poi] "2024-06-01" "2024-06-03"
    (some ⟨0, 0⟩) "9:00" "21:00" false (.typeError "unhashable type: dict") (by decide)]
  decide
